import Mathlib

/-!
Shallow embedding of `src/vc.py` (EVC voice-conversion pipeline orchestrator).

External collaborators (filesystem existence, `Path.absolute`, `librosa`
duration probing, the `MODELS` registry, the `random` source, and the
converter's `apply_conf` / call operations) are modelled as explicit
parameters collected in an `Env` record.  Exceptions are modelled as
`Except String` values carrying the Python exception's message string;
the orchestrator's `try/except` wrapper corresponds to the final
message-prefixing step of `mainpipe`.  Calls to external collaborators
are additionally recorded in an explicit event log (`ExtCall`) so that
properties such as "the converter is invoked exactly once with these
arguments" are statable.
-/

/-- The `files` argument of `validate_audio_files`: Python's
`Union[str, List[str]]`, plus an absent (`None`) case. -/
inductive FilesInput where
  | noneInput : FilesInput
  | single : String → FilesInput
  | many : List String → FilesInput
deriving DecidableEq, Repr

/-- Python truthiness of the `files` argument (`if not files:` in
`validate_audio_files`): `None`, `""` and `[]` are falsy. -/
def FilesInput.truthy : FilesInput → Bool
  | .noneInput => false
  | .single s => !s.isEmpty
  | .many l => !l.isEmpty

/-- The normalisation `if isinstance(files, str): files = [files]` of
`validate_audio_files`: the sequence of paths the validation loop runs over. -/
def FilesInput.toList : FilesInput → List String
  | .noneInput => []
  | .single s => [s]
  | .many l => l

/-- The `for file_path in files:` loop of `validate_audio_files`
(lines 30-37 of `src/vc.py`): checks existence of each path in order,
raising `AudioConverterError("Audio file not found: " + file_path)` at the
first non-existent path, and collects `str(path.absolute())` for the rest.
`exists_fs` models `Path.exists`, `absPath` models `str(Path(...).absolute())`. -/
def validate_loop (exists_fs : String → Bool) (absPath : String → String) :
    List String → Except String (List String)
  | [] => .ok []
  | f :: rest =>
    if exists_fs f then
      match validate_loop exists_fs absPath rest with
      | .ok vs => .ok (absPath f :: vs)
      | .error e => .error e
    else .error ("Audio file not found: " ++ f)

/-- `validate_audio_files` (lines 11-37 of `src/vc.py`). -/
def validate_audio_files (exists_fs : String → Bool) (absPath : String → String)
    (files : FilesInput) : Except String (List String) :=
  if !files.truthy then .error "No audio files provided"
  else validate_loop exists_fs absPath files.toList

/-- Python's `str.endswith(p)`: whether `p`'s character sequence is a suffix
of `s`'s character sequence. -/
def strEndsWith (s p : String) : Bool := p.data.isSuffixOf s.data

/-- One decimal digit character, as Python renders integers (`Nat.digitChar`
agrees with Python's decimal rendering for digits 0-9). -/
def decDigit (n : Nat) : Char := Nat.digitChar n

/-- Decimal digit-list accumulator: the digits of `n` in order, prepended to
`acc`.  Models Python's decimal rendering of a nonnegative integer inside an
f-string. -/
def natDigitsAux (n : Nat) (acc : List Char) : List Char :=
  if n < 10 then decDigit n :: acc
  else natDigitsAux (n / 10) (decDigit (n % 10) :: acc)
termination_by n
decreasing_by omega

/-- Decimal string of a natural number, as Python's `f"{n}"` renders it. -/
def natToDecimalString (n : Nat) : String :=
  String.mk (natDigitsAux n [])

/-- Python's `random.randint(a, b)`: a uniform draw from the inclusive range
`[a, b]`, modelled as a function of an arbitrary draw from the underlying
random source. -/
def randint (a b draw : Nat) : Nat := a + draw % (b - a + 1)

/-- `generate_random_tag` (lines 39-41 of `src/vc.py`):
`f"USER_{random.randint(10000000, 99999999)}"`. -/
def generate_random_tag (draw : Nat) : String :=
  "USER_" ++ natToDecimalString (randint 10000000 99999999 draw)

/-- An entry of the external `MODELS` registry:
`{model_name: string, model: path, index: path}`. -/
structure ModelEntry where
  model_name : String
  model : String
  index : String
deriving DecidableEq, Repr

/-- The `config_params` dictionary assembled at lines 110-121 of `src/vc.py`.
The numeric parameters are opaque pass-through values (no arithmetic is
performed on them), modelled as rationals. -/
structure ConfigParams where
  tag : String
  file_model : String
  pitch_algo : String
  pitch_lvl : Rat
  file_index : String
  index_influence : Rat
  respiration_median_filtering : Bool
  envelope_ratio : Rat
  consonant_breath_protection : Bool
  audio_files : List String
deriving DecidableEq, Repr

/-- Python sequence indexing `l[0]`: the first element, or an `IndexError`
whose message is `"list index out of range"`. -/
def pyIndex0 {α : Type} (l : List α) : Except String α :=
  match l with
  | [] => .error "list index out of range"
  | x :: _ => .ok x

/-- An observable call to an external collaborator, recorded in order. -/
inductive ExtCall where
  | durationProbe (path : String)
  | applyConf (cfg : ConfigParams) (resample_sr : Nat)
  | sleepSettle
  | convertCall (files : List String) (tag : String) (overwrite : Bool)
      (parallel_workers : Nat)
deriving DecidableEq, Repr

/-- Recognises the converter-invocation event. -/
def ExtCall.isConvertCall : ExtCall → Bool
  | .convertCall _ _ _ _ => true
  | _ => false

/-- Recognises the configuration-apply event. -/
def ExtCall.isApplyConf : ExtCall → Bool
  | .applyConf _ _ => true
  | _ => false

/-- The external world of one `mainpipe` run: filesystem, path
absolutisation, `librosa.get_duration`, the `MODELS` registry, the draw of
the random source, and the converter's two capabilities.  `ρ` is the opaque
type of the converter's result elements. -/
structure Env (ρ : Type) where
  exists_fs : String → Bool
  absPath : String → String
  duration : String → Except String Rat
  models : List ModelEntry
  draw : Nat
  apply_conf : ConfigParams → Nat → Except String Unit
  convert : List String → String → Bool → Nat → Except String (List ρ)

/-- `configure_converter` (lines 43-53 of `src/vc.py`): derives
`sample_rate = 44100 if config_params['audio_files'][0].endswith('.mp3') else 0`,
calls `converter.apply_conf(**config_params, resample_sr=sample_rate)` and
sleeps 0.1 s.  Returns the outcome together with the external calls made. -/
def configure_converter (apply_conf : ConfigParams → Nat → Except String Unit)
    (config_params : ConfigParams) : Except String Unit × List ExtCall :=
  match pyIndex0 config_params.audio_files with
  | .error e => (.error e, [])
  | .ok f0 =>
    let sample_rate : Nat := if strEndsWith f0 ".mp3" then 44100 else 0
    match apply_conf config_params sample_rate with
    | .error e => (.error e, [.applyConf config_params sample_rate])
    | .ok _ => (.ok (), [.applyConf config_params sample_rate, .sleepSettle])

/-- The model-resolution step of `mainpipe` (lines 98-107 of `src/vc.py`):
`next((m for m in MODELS if m["model_name"] == model), None)`, then the
`None` check and the `.pth` extension check. -/
def resolve_model (models : List ModelEntry) (model : String) :
    Except String ModelEntry :=
  match models.find? (fun m => m.model_name == model) with
  | Option.none => .error ("Model not found: " ++ model)
  | Option.some model_config =>
    if !strEndsWith model_config.model ".pth" then
      .error "Invalid model file (must be .pth)"
    else .ok model_config

/-- The body of `mainpipe`'s `try:` block (lines 86-128 of `src/vc.py`):
validation, duration probe, tag generation, model resolution, configuration,
conversion, result extraction.  Any raised exception surfaces as an
`.error` carrying its message; the external-call log is returned alongside. -/
def mainpipe_body {ρ : Type} (env : Env ρ) (model : String)
    (audio_files : FilesInput) (pitch_alg : String) (pitch_lvl : Rat)
    (index_inf : Rat) (r_m_f : Bool) (e_r : Rat) (c_b_p : Bool) :
    Except String ρ × List ExtCall :=
  match validate_audio_files env.exists_fs env.absPath audio_files with
  | .error e => (.error e, [])
  | .ok files =>
  match pyIndex0 files with
  | .error e => (.error e, [])
  | .ok f0 =>
  match env.duration f0 with
  | .error e => (.error e, [.durationProbe f0])
  | .ok _duration_base =>
  let random_tag := generate_random_tag env.draw
  match resolve_model env.models model with
  | .error e => (.error e, [.durationProbe f0])
  | .ok model_config =>
  let config_params : ConfigParams :=
    { tag := random_tag
      file_model := model_config.model
      pitch_algo := pitch_alg
      pitch_lvl := pitch_lvl
      file_index := model_config.index
      index_influence := index_inf
      respiration_median_filtering := r_m_f
      envelope_ratio := e_r
      consonant_breath_protection := c_b_p
      audio_files := files }
  match configure_converter env.apply_conf config_params with
  | (.error e, calls) => (.error e, .durationProbe f0 :: calls)
  | (.ok _, calls) =>
  match env.convert files random_tag false 8 with
  | .error e =>
      (.error e,
        .durationProbe f0 :: calls ++ [.convertCall files random_tag false 8])
  | .ok result =>
  match pyIndex0 result with
  | .error e =>
      (.error e,
        .durationProbe f0 :: calls ++ [.convertCall files random_tag false 8])
  | .ok r =>
      (.ok r,
        .durationProbe f0 :: calls ++ [.convertCall files random_tag false 8])

/-- `mainpipe` (lines 55-131 of `src/vc.py`): the `try:` body wrapped by the
single `except Exception as e: raise AudioConverterError(f"Conversion failed:
{str(e)}")` handler. -/
def mainpipe {ρ : Type} (env : Env ρ) (model : String)
    (audio_files : FilesInput) (pitch_alg : String) (pitch_lvl : Rat)
    (index_inf : Rat) (r_m_f : Bool) (e_r : Rat) (c_b_p : Bool) :
    Except String ρ × List ExtCall :=
  match mainpipe_body env model audio_files pitch_alg pitch_lvl index_inf
      r_m_f e_r c_b_p with
  | (.error e, calls) => (.error ("Conversion failed: " ++ e), calls)
  | (.ok r, calls) => (.ok r, calls)

/-! ## Helper lemmas about the validation loop -/

/-- If every path in the list exists, the loop returns the absolutised list. -/
theorem validate_loop_all_exist (exists_fs : String → Bool)
    (absPath : String → String) (l : List String)
    (h : ∀ f ∈ l, exists_fs f = true) :
    validate_loop exists_fs absPath l = .ok (l.map absPath) := by
  induction l with
  | nil => rfl
  | cons f rest ih =>
    have hf : exists_fs f = true := h f (List.mem_cons_self f rest)
    have hrest := ih (fun g hg => h g (List.mem_cons_of_mem f hg))
    simp [validate_loop, hf, hrest]

/-- If every path before `bad` exists and `bad` does not, the loop fails
naming `bad`, whatever comes after it. -/
theorem validate_loop_first_bad (exists_fs : String → Bool)
    (absPath : String → String) (pre : List String) (bad : String)
    (post : List String) (hpre : ∀ f ∈ pre, exists_fs f = true)
    (hbad : exists_fs bad = false) :
    validate_loop exists_fs absPath (pre ++ bad :: post)
      = .error ("Audio file not found: " ++ bad) := by
  induction pre with
  | nil => simp [validate_loop, hbad]
  | cons f rest ih =>
    have hf : exists_fs f = true := hpre f (List.mem_cons_self f rest)
    have hrest := ih (fun g hg => hpre g (List.mem_cons_of_mem f hg))
    simp [validate_loop, hf, hrest]

/-- If some path in the list does not exist, the loop fails naming some
non-existent path of the list. -/
theorem validate_loop_exists_bad (exists_fs : String → Bool)
    (absPath : String → String) (l : List String)
    (h : ∃ f ∈ l, exists_fs f = false) :
    ∃ nf, nf ∈ l ∧ exists_fs nf = false ∧
      validate_loop exists_fs absPath l
        = .error ("Audio file not found: " ++ nf) := by
  induction l with
  | nil => simp at h
  | cons f rest ih =>
    by_cases hf : exists_fs f = true
    · obtain ⟨g, hg, hge⟩ := h
      rcases List.mem_cons.mp hg with hgf | hgr
      · rw [hgf] at hge; rw [hge] at hf; cases hf
      · obtain ⟨nf, hnfm, hnfe, hnfl⟩ := ih ⟨g, hgr, hge⟩
        exact ⟨nf, List.mem_cons_of_mem f hnfm, hnfe,
          by simp [validate_loop, hf, hnfl]⟩
    · have hf0 : exists_fs f = false := by
        cases hv : exists_fs f
        · rfl
        · exact absurd hv hf
      exact ⟨f, List.mem_cons_self f rest, hf0, by simp [validate_loop, hf0]⟩

/-- `find?` over a split list whose prefix has no match and whose pivot
matches returns the pivot. -/
theorem find_first_match (p : ModelEntry → Bool) (pre : List ModelEntry)
    (x : ModelEntry) (post : List ModelEntry)
    (hpre : ∀ m ∈ pre, p m = false) (hx : p x = true) :
    (pre ++ x :: post).find? p = some x := by
  induction pre with
  | nil => simp [List.find?, hx]
  | cons a rest ih =>
    have ha : p a = false := hpre a (List.mem_cons_self a rest)
    have hrest := ih (fun m hm => hpre m (List.mem_cons_of_mem a hm))
    simp [List.find?, ha, hrest]

/-! ## Claim theorems: the validator -/

/-- C5: for every non-empty input (single value or sequence) in which every
path exists, `validate_audio_files` returns the ordered sequence of
absolutised paths, with the same length and order as the input, a single
value being first normalised into a one-element sequence. -/
theorem validate_audio_files_ok (exists_fs : String → Bool)
    (absPath : String → String) (input : FilesInput)
    (ht : input.truthy = true)
    (hall : ∀ f ∈ input.toList, exists_fs f = true) :
    validate_audio_files exists_fs absPath input
        = .ok (input.toList.map absPath) ∧
    (input.toList.map absPath).length = input.toList.length ∧
    ∀ s : String, (FilesInput.single s).toList = [s] := by
  refine ⟨?_, by simp, fun s => rfl⟩
  unfold validate_audio_files
  rw [ht]
  simpa using validate_loop_all_exist exists_fs absPath input.toList hall

/-- Witness for C5 at a concrete input. -/
theorem validate_audio_files_ok_witness :
    validate_audio_files (fun _ => true) (fun s => "/cwd/" ++ s)
        (.many ["a.mp3", "b.wav"])
      = .ok (((FilesInput.many ["a.mp3", "b.wav"]).toList).map
          (fun s => "/cwd/" ++ s)) ∧
    (((FilesInput.many ["a.mp3", "b.wav"]).toList).map
        (fun s => "/cwd/" ++ s)).length
      = ((FilesInput.many ["a.mp3", "b.wav"]).toList).length ∧
    ∀ s : String, (FilesInput.single s).toList = [s] :=
  validate_audio_files_ok (fun _ => true) (fun s => "/cwd/" ++ s)
    (.many ["a.mp3", "b.wav"]) (by decide) (fun f _ => rfl)

/-- C6: an empty or absent `files` input fails with the `InvalidInput`
message; a non-empty input containing a non-existent path fails with the
`FileNotFound` message naming a non-existent path of the input. -/
theorem validate_audio_files_fail (exists_fs : String → Bool)
    (absPath : String → String) (input : FilesInput) :
    (input.truthy = false →
      validate_audio_files exists_fs absPath input
        = .error "No audio files provided") ∧
    (input.truthy = true →
      ∀ bad ∈ input.toList, exists_fs bad = false →
        ∃ nf, nf ∈ input.toList ∧ exists_fs nf = false ∧
          validate_audio_files exists_fs absPath input
            = .error ("Audio file not found: " ++ nf)) := by
  constructor
  · intro h
    unfold validate_audio_files
    rw [h]
    rfl
  · intro ht bad hmem hbad
    obtain ⟨nf, hnfm, hnfe, hnfl⟩ :=
      validate_loop_exists_bad exists_fs absPath input.toList ⟨bad, hmem, hbad⟩
    refine ⟨nf, hnfm, hnfe, ?_⟩
    unfold validate_audio_files
    rw [ht]
    simpa using hnfl

/-- Witness for C6 at concrete inputs: the empty list is rejected as
`InvalidInput`, and a list containing a non-existent path is rejected
naming a non-existent path. -/
theorem validate_audio_files_fail_witness :
    ((FilesInput.many []).truthy = false →
      validate_audio_files (fun f => f == "a") id (.many [])
        = .error "No audio files provided") ∧
    ((FilesInput.many []).truthy = false) ∧
    (∃ nf, nf ∈ (FilesInput.many ["a", "b"]).toList ∧
      (fun f => f == "a") nf = false ∧
      validate_audio_files (fun f => f == "a") id (.many ["a", "b"])
        = .error ("Audio file not found: " ++ nf)) :=
  ⟨(validate_audio_files_fail (fun f => f == "a") id (.many [])).1,
   by decide,
   (validate_audio_files_fail (fun f => f == "a") id (.many ["a", "b"])).2
     (by decide) "b" (by decide) (by decide)⟩

/-- C9: path validation is fail-fast in input order: when every path before
`bad` exists and `bad` does not, validation fails naming `bad`, for every
tail `post` and every behaviour of the existence oracle on the paths after
`bad` (they are never consulted). -/
theorem validate_audio_files_fail_fast (exists_fs : String → Bool)
    (absPath : String → String) (pre : List String) (bad : String)
    (post : List String) (hpre : ∀ f ∈ pre, exists_fs f = true)
    (hbad : exists_fs bad = false) :
    validate_audio_files exists_fs absPath (.many (pre ++ bad :: post))
      = .error ("Audio file not found: " ++ bad) := by
  have ht : (FilesInput.many (pre ++ bad :: post)).truthy = true := by
    simp [FilesInput.truthy]
  unfold validate_audio_files
  rw [ht]
  simpa [FilesInput.toList] using
    validate_loop_first_bad exists_fs absPath pre bad post hpre hbad

/-- Witness for C9 at a concrete input: with two non-existent paths `"b"`
and `"c"`, the error names the earlier one, `"b"`. -/
theorem validate_audio_files_fail_fast_witness :
    validate_audio_files (fun f => f == "a") id (.many ["a", "b", "c"])
      = .error ("Audio file not found: " ++ "b") :=
  validate_audio_files_fail_fast (fun f => f == "a") id ["a"] "b" ["c"]
    (by decide) (by decide)

/-- C10: the empty string as the `files` argument is rejected by the
emptiness check with the `InvalidInput` message, not treated as a
one-element sequence; in particular the result is never a `FileNotFound`
error, whatever the filesystem contains. -/
theorem validate_audio_files_empty_string (exists_fs : String → Bool)
    (absPath : String → String) :
    validate_audio_files exists_fs absPath (.single "")
        = .error "No audio files provided" ∧
    ∀ p : String, validate_audio_files exists_fs absPath (.single "")
        ≠ .error ("Audio file not found: " ++ p) := by
  constructor
  · rfl
  · intro p h
    rw [show validate_audio_files exists_fs absPath (.single "")
          = .error "No audio files provided" from rfl] at h
    have h2 := congrArg String.data (Except.error.inj h)
    simp at h2

/-! ## Claim theorem: the model resolver -/

/-- C3: model resolution selects the first registry entry whose name equals
the requested name exactly; with no match it fails with `ModelNotFound`
naming the requested model; if the first matching entry's weights path does
not end in `.pth` it fails with `InvalidModelFile`; otherwise it returns
that entry. -/
theorem resolve_model_spec (models : List ModelEntry) (name : String) :
    ((∀ m ∈ models, m.model_name ≠ name) →
      resolve_model models name = .error ("Model not found: " ++ name)) ∧
    (∀ pre entry post, models = pre ++ entry :: post →
      (∀ m ∈ pre, m.model_name ≠ name) → entry.model_name = name →
      resolve_model models name =
        if strEndsWith entry.model ".pth" then .ok entry
        else .error "Invalid model file (must be .pth)") := by
  constructor
  · intro h
    have hnone : models.find? (fun m => m.model_name == name) = Option.none := by
      rw [List.find?_eq_none]
      intro m hm
      simpa using h m hm
    simp [resolve_model, hnone]
  · intro pre entry post hsplit hpre hentry
    have hfind : models.find? (fun m => m.model_name == name)
        = Option.some entry := by
      rw [hsplit]
      exact find_first_match (fun m => m.model_name == name) pre entry post
        (fun m hm => by simpa using hpre m hm) (by simpa using hentry)
    cases hext : strEndsWith entry.model ".pth" with
    | true => simp [resolve_model, hfind, hext]
    | false => simp [resolve_model, hfind, hext]

/-- Witness for C3 at concrete registries: an absent name fails with
`ModelNotFound`; a present name with a `.onnx` weights path fails with
`InvalidModelFile`; a present name with a `.pth` path resolves. -/
theorem resolve_model_spec_witness :
    resolve_model [⟨"Y", "w.onnx", "i"⟩] "X"
        = .error ("Model not found: " ++ "X") ∧
    resolve_model [⟨"Y", "w.onnx", "i"⟩] "Y"
        = (if strEndsWith "w.onnx" ".pth" then
            .ok (⟨"Y", "w.onnx", "i"⟩ : ModelEntry)
          else .error "Invalid model file (must be .pth)") ∧
    resolve_model [⟨"Z", "w.pth", "i"⟩] "Z"
        = (if strEndsWith "w.pth" ".pth" then
            .ok (⟨"Z", "w.pth", "i"⟩ : ModelEntry)
          else .error "Invalid model file (must be .pth)") :=
  ⟨(resolve_model_spec [⟨"Y", "w.onnx", "i"⟩] "X").1 (by decide),
   (resolve_model_spec [⟨"Y", "w.onnx", "i"⟩] "Y").2 [] ⟨"Y", "w.onnx", "i"⟩ []
     rfl (by simp) rfl,
   (resolve_model_spec [⟨"Z", "w.pth", "i"⟩] "Z").2 [] ⟨"Z", "w.pth", "i"⟩ []
     rfl (by simp) rfl⟩

/-! ## Helper lemmas about decimal rendering -/

/-- Each digit character below 10 satisfies `Char.isDigit`. -/
theorem decDigit_isDigit (n : Nat) (h : n < 10) :
    (decDigit n).isDigit = true := by
  interval_cases n <;> decide

/-- Length of the accumulated digit list: the number of decimal digits of
`n` plus the accumulator's length. -/
theorem natDigitsAux_length (n : Nat) :
    ∀ acc : List Char,
      (natDigitsAux n acc).length = Nat.log 10 n + 1 + acc.length := by
  induction n using Nat.strong_induction_on with
  | _ n ih =>
    intro acc
    rw [natDigitsAux]
    by_cases h : n < 10
    · simp [h, Nat.log_of_lt h]
      omega
    · have hdiv : n / 10 < n := by omega
      rw [if_neg h, ih (n / 10) hdiv]
      have hlog : Nat.log 10 (n / 10) = Nat.log 10 n - 1 := Nat.log_div_base 10 n
      have hpos : 0 < Nat.log 10 n := Nat.log_pos (by omega) (by omega)
      simp only [List.length_cons]
      omega

/-- Every character produced by the digit accumulator is a decimal digit. -/
theorem natDigitsAux_digits (n : Nat) :
    ∀ acc : List Char, (∀ c ∈ acc, c.isDigit = true) →
      ∀ c ∈ natDigitsAux n acc, c.isDigit = true := by
  induction n using Nat.strong_induction_on with
  | _ n ih =>
    intro acc hacc c hc
    rw [natDigitsAux] at hc
    by_cases h : n < 10
    · rw [if_pos h] at hc
      rcases List.mem_cons.mp hc with h1 | h2
      · rw [h1]; exact decDigit_isDigit n h
      · exact hacc c h2
    · rw [if_neg h] at hc
      refine ih (n / 10) (by omega) _ ?_ c hc
      intro d hd
      rcases List.mem_cons.mp hd with h1 | h2
      · rw [h1]; exact decDigit_isDigit (n % 10) (by omega)
      · exact hacc d h2

/-! ## Claim theorem: the tag generator -/

/-- C7: for every draw of the underlying random source, the generated tag is
`USER_` followed by exactly 8 decimal digit characters, the rendered number
lying in the inclusive range `[10000000, 99999999]`. -/
theorem generate_random_tag_spec (draw : Nat) :
    ∃ n : Nat, 10000000 ≤ n ∧ n ≤ 99999999 ∧
      generate_random_tag draw = "USER_" ++ natToDecimalString n ∧
      (natToDecimalString n).length = 8 ∧
      ∀ c ∈ (natToDecimalString n).data, c.isDigit = true := by
  refine ⟨randint 10000000 99999999 draw, ?_, ?_, rfl, ?_, ?_⟩
  · unfold randint; omega
  · unfold randint; omega
  · have h1 : 10000000 ≤ randint 10000000 99999999 draw := by
      unfold randint; omega
    have h2 : randint 10000000 99999999 draw < 100000000 := by
      unfold randint; omega
    have hlog : Nat.log 10 (randint 10000000 99999999 draw) = 7 :=
      Nat.log_eq_of_pow_le_of_lt_pow (by norm_num; omega) (by norm_num; omega)
    show (String.mk (natDigitsAux _ [])).length = 8
    have := natDigitsAux_length (randint 10000000 99999999 draw) []
    simp only [String.length, List.length_nil] at *
    omega
  · intro c hc
    exact natDigitsAux_digits (randint 10000000 99999999 draw) []
      (by intro d hd; cases hd) c hc

/-! ## The pipeline orchestrator -/

/-- The `config_params` record assembled at lines 110-121 of `src/vc.py`,
as a function of its inputs. -/
def runConfig (tag : String) (mc : ModelEntry) (pitch_alg : String)
    (pitch_lvl index_inf : Rat) (r_m_f : Bool) (e_r : Rat) (c_b_p : Bool)
    (files : List String) : ConfigParams :=
  { tag := tag
    file_model := mc.model
    pitch_algo := pitch_alg
    pitch_lvl := pitch_lvl
    file_index := mc.index
    index_influence := index_inf
    respiration_median_filtering := r_m_f
    envelope_ratio := e_r
    consonant_breath_protection := c_b_p
    audio_files := files }

/-- Run lemma: once validation, duration probing and model resolution
succeed, `mainpipe` is determined by the converter configuration and
invocation, with the external-call log made explicit. -/
theorem mainpipe_run {ρ : Type} (env : Env ρ) (model : String)
    (input : FilesInput) (pitch_alg : String) (pitch_lvl index_inf : Rat)
    (r_m_f : Bool) (e_r : Rat) (c_b_p : Bool) (f0 : String)
    (fs : List String) (d : Rat) (mc : ModelEntry)
    (hv : validate_audio_files env.exists_fs env.absPath input = .ok (f0 :: fs))
    (hd : env.duration f0 = .ok d)
    (hm : resolve_model env.models model = .ok mc) :
    mainpipe env model input pitch_alg pitch_lvl index_inf r_m_f e_r c_b_p =
      (let tag := generate_random_tag env.draw
       let cfg := runConfig tag mc pitch_alg pitch_lvl index_inf r_m_f e_r c_b_p (f0 :: fs)
       let sr : Nat := if strEndsWith f0 ".mp3" then 44100 else 0
       match env.apply_conf cfg sr with
       | .error e => (.error ("Conversion failed: " ++ e),
           [.durationProbe f0, .applyConf cfg sr])
       | .ok _ =>
         match env.convert (f0 :: fs) tag false 8 with
         | .error e => (.error ("Conversion failed: " ++ e),
             [.durationProbe f0, .applyConf cfg sr, .sleepSettle,
              .convertCall (f0 :: fs) tag false 8])
         | .ok [] => (.error ("Conversion failed: " ++ "list index out of range"),
             [.durationProbe f0, .applyConf cfg sr, .sleepSettle,
              .convertCall (f0 :: fs) tag false 8])
         | .ok (r :: _) => (.ok r,
             [.durationProbe f0, .applyConf cfg sr, .sleepSettle,
              .convertCall (f0 :: fs) tag false 8])) := by
  unfold mainpipe mainpipe_body
  rw [hv]
  simp only [pyIndex0]
  rw [hd, hm]
  simp only [configure_converter, pyIndex0, runConfig]
  rcases hap : env.apply_conf _ _ with e | u
  · simp [hap]
  · rcases hcv : env.convert (f0 :: fs) (generate_random_tag env.draw) false 8 with e | res
    · simp [hap, hcv]
    · rcases res with _ | ⟨r, rest⟩
      · simp [hap, hcv]
      · simp [hap, hcv]

/-- C1: every invocation of `mainpipe` yields exactly one of two outcomes:
the successful result of the `try:` body, or a single error whose message is
`Conversion failed: ` followed by the original failure description of
whichever stage raised, wrapped exactly once at the orchestrator boundary,
with no retry and no partial-success state. -/
theorem mainpipe_uniform_wrapping {ρ : Type} (env : Env ρ) (model : String)
    (audio_files : FilesInput) (pitch_alg : String) (pitch_lvl index_inf : Rat)
    (r_m_f : Bool) (e_r : Rat) (c_b_p : Bool) :
    (∃ r calls,
      mainpipe env model audio_files pitch_alg pitch_lvl index_inf r_m_f e_r c_b_p
        = (.ok r, calls) ∧
      mainpipe_body env model audio_files pitch_alg pitch_lvl index_inf r_m_f e_r c_b_p
        = (.ok r, calls)) ∨
    (∃ e calls,
      mainpipe env model audio_files pitch_alg pitch_lvl index_inf r_m_f e_r c_b_p
        = (.error ("Conversion failed: " ++ e), calls) ∧
      mainpipe_body env model audio_files pitch_alg pitch_lvl index_inf r_m_f e_r c_b_p
        = (.error e, calls)) := by
  rcases h : mainpipe_body env model audio_files pitch_alg pitch_lvl index_inf
      r_m_f e_r c_b_p with ⟨res, calls⟩
  cases res with
  | error e => right; exact ⟨e, calls, by simp [mainpipe, h], rfl⟩
  | ok r => left; exact ⟨r, calls, by simp [mainpipe, h], rfl⟩

/-- C2 (amended): when the external converter returns a non-empty result
sequence, `mainpipe` returns its first element unchanged; when the returned
sequence is empty, `mainpipe` fails with the uniform wrapped error whose
message is `Conversion failed: list index out of range` (the wrapped
`IndexError` of `result[0]`) — not with a distinct `EmptyResult` error. -/
theorem mainpipe_extract_result {ρ : Type} (env : Env ρ) (model : String)
    (input : FilesInput) (pitch_alg : String) (pitch_lvl index_inf : Rat)
    (r_m_f : Bool) (e_r : Rat) (c_b_p : Bool) (f0 : String) (fs : List String)
    (d : Rat) (mc : ModelEntry) (res : List ρ)
    (hv : validate_audio_files env.exists_fs env.absPath input = .ok (f0 :: fs))
    (hd : env.duration f0 = .ok d)
    (hm : resolve_model env.models model = .ok mc)
    (ha : ∀ cfg sr, env.apply_conf cfg sr = .ok ())
    (hc : env.convert (f0 :: fs) (generate_random_tag env.draw) false 8 = .ok res) :
    (∀ r rest, res = r :: rest →
      (mainpipe env model input pitch_alg pitch_lvl index_inf r_m_f e_r c_b_p).1
        = .ok r) ∧
    (res = [] →
      (mainpipe env model input pitch_alg pitch_lvl index_inf r_m_f e_r c_b_p).1
        = .error "Conversion failed: list index out of range") := by
  have hrun := mainpipe_run env model input pitch_alg pitch_lvl index_inf
    r_m_f e_r c_b_p f0 fs d mc hv hd hm
  rw [hrun]
  simp only [ha, hc]
  constructor
  · intro r rest hres
    subst hres
    rfl
  · intro hres
    subst hres
    rfl

/-- C4: for every validated request, the resample rate in the assembled
configuration handed to `apply_conf` depends only on the first audio
file's extension: `44100` when the first file ends in `.mp3`, `0`
otherwise, regardless of the extensions of the later files (`rest` is
arbitrary).  The hypothesis `hpres` records that path absolutisation
preserves the `.mp3` suffix, as `Path.absolute` does. -/
theorem mainpipe_resample_rate {ρ : Type} (env : Env ρ) (model : String)
    (input : FilesInput) (pitch_alg : String) (pitch_lvl index_inf : Rat)
    (r_m_f : Bool) (e_r : Rat) (c_b_p : Bool) (f0 : String)
    (rest : List String) (d : Rat) (mc : ModelEntry)
    (ht : input.toList = f0 :: rest)
    (htr : input.truthy = true)
    (hex : ∀ f ∈ input.toList, env.exists_fs f = true)
    (hd : env.duration (env.absPath f0) = .ok d)
    (hm : resolve_model env.models model = .ok mc)
    (hpres : strEndsWith (env.absPath f0) ".mp3" = strEndsWith f0 ".mp3") :
    ∃ cfg : ConfigParams,
      (mainpipe env model input pitch_alg pitch_lvl index_inf r_m_f e_r c_b_p).2.filter
          ExtCall.isApplyConf
        = [ExtCall.applyConf cfg (if strEndsWith f0 ".mp3" then 44100 else 0)] ∧
      cfg.audio_files = input.toList.map env.absPath := by
  have hv : validate_audio_files env.exists_fs env.absPath input
      = .ok (env.absPath f0 :: rest.map env.absPath) := by
    unfold validate_audio_files
    rw [htr, ht]
    have := validate_loop_all_exist env.exists_fs env.absPath input.toList hex
    rw [ht] at this
    simpa using this
  have hrun := mainpipe_run env model input pitch_alg pitch_lvl index_inf
    r_m_f e_r c_b_p (env.absPath f0) (rest.map env.absPath) d mc hv hd hm
  refine ⟨runConfig (generate_random_tag env.draw) mc pitch_alg pitch_lvl
    index_inf r_m_f e_r c_b_p (env.absPath f0 :: rest.map env.absPath), ?_, ?_⟩
  · rw [hrun]
    simp only [hpres]
    rcases hap : env.apply_conf (runConfig (generate_random_tag env.draw) mc
        pitch_alg pitch_lvl index_inf r_m_f e_r c_b_p
        (env.absPath f0 :: rest.map env.absPath))
        (if strEndsWith f0 ".mp3" then 44100 else 0) with e | u
    · simp [List.filter, ExtCall.isApplyConf]
    · rcases hcv : env.convert (env.absPath f0 :: rest.map env.absPath)
          (generate_random_tag env.draw) false 8 with e | res
      · simp [List.filter, ExtCall.isApplyConf, ExtCall.isConvertCall]
      · rcases res with _ | ⟨r, rs⟩ <;>
          simp [List.filter, ExtCall.isApplyConf, ExtCall.isConvertCall]
  · simp [runConfig, ht]

/-- C8: on every run that reaches the Converting stage, the external
converter is invoked exactly once — the call log contains exactly one
`convertCall` event — and with the validated absolutised file list, the tag
generated for this run, the overwrite flag `false`, and 8 parallel
workers. -/
theorem mainpipe_convert_invocation {ρ : Type} (env : Env ρ) (model : String)
    (input : FilesInput) (pitch_alg : String) (pitch_lvl index_inf : Rat)
    (r_m_f : Bool) (e_r : Rat) (c_b_p : Bool) (f0 : String)
    (rest : List String) (d : Rat) (mc : ModelEntry)
    (ht : input.toList = f0 :: rest)
    (htr : input.truthy = true)
    (hex : ∀ f ∈ input.toList, env.exists_fs f = true)
    (hd : env.duration (env.absPath f0) = .ok d)
    (hm : resolve_model env.models model = .ok mc)
    (ha : ∀ cfg sr, env.apply_conf cfg sr = .ok ()) :
    (mainpipe env model input pitch_alg pitch_lvl index_inf r_m_f e_r c_b_p).2.filter
        ExtCall.isConvertCall
      = [ExtCall.convertCall (input.toList.map env.absPath)
          (generate_random_tag env.draw) false 8] := by
  have hv : validate_audio_files env.exists_fs env.absPath input
      = .ok (env.absPath f0 :: rest.map env.absPath) := by
    unfold validate_audio_files
    rw [htr, ht]
    have := validate_loop_all_exist env.exists_fs env.absPath input.toList hex
    rw [ht] at this
    simpa using this
  have hrun := mainpipe_run env model input pitch_alg pitch_lvl index_inf
    r_m_f e_r c_b_p (env.absPath f0) (rest.map env.absPath) d mc hv hd hm
  rw [hrun]
  simp only [ha, ht]
  rcases hcv : env.convert (env.absPath f0 :: rest.map env.absPath)
      (generate_random_tag env.draw) false 8 with e | res
  · simp [List.filter, ExtCall.isApplyConf, ExtCall.isConvertCall, List.map]
  · rcases res with _ | ⟨r, rs⟩ <;>
      simp [List.filter, ExtCall.isApplyConf, ExtCall.isConvertCall, List.map]

/-- A concrete environment on which every stage succeeds. -/
def demoEnv : Env String :=
  { exists_fs := fun _ => true
    absPath := fun s => "/cwd/" ++ s
    duration := fun _ => .ok 3
    models := [⟨"X", "w.pth", "i.index"⟩]
    draw := 0
    apply_conf := fun _ _ => .ok ()
    convert := fun _ _ _ _ => .ok ["out.wav"] }

/-- A concrete environment whose converter returns an empty result list. -/
def emptyResultEnv : Env String :=
  { demoEnv with convert := fun _ _ _ _ => .ok [] }

/-- Witness for C2 at the concrete environment `demoEnv`. -/
theorem mainpipe_extract_result_witness :
    (∀ r rest, ["out.wav"] = r :: rest →
      (mainpipe demoEnv "X" (.single "a.wav") "rmvpe" 0 0 false 0 false).1
        = .ok r) ∧
    ((["out.wav"] : List String) = [] →
      (mainpipe demoEnv "X" (.single "a.wav") "rmvpe" 0 0 false 0 false).1
        = .error "Conversion failed: list index out of range") :=
  mainpipe_extract_result demoEnv "X" (.single "a.wav") "rmvpe" 0 0 false 0
    false "/cwd/a.wav" [] 3 ⟨"X", "w.pth", "i.index"⟩ ["out.wav"]
    rfl rfl rfl (fun _ _ => rfl) rfl

/-- Counterexample for C2 as stated: with a converter returning an empty
result sequence, the pipeline's error is the generic wrapped index error
`Conversion failed: list index out of range`; no error mentioning an empty
result exists (the message does not even contain `EmptyResult`). -/
theorem mainpipe_empty_result_cex :
    (mainpipe emptyResultEnv "X" (.single "a.wav") "rmvpe" 0 0 false 0 false).1
        = .error "Conversion failed: list index out of range" ∧
    ¬ ("EmptyResult".data <:+: "Conversion failed: list index out of range".data) := by
  constructor
  · rfl
  · decide

/-- Witness for C4 at the concrete environment `demoEnv` with files
`["a.mp3", "b.wav"]`. -/
theorem mainpipe_resample_rate_witness :
    ∃ cfg : ConfigParams,
      (mainpipe demoEnv "X" (.many ["a.mp3", "b.wav"]) "rmvpe" 0 0 false 0
          false).2.filter ExtCall.isApplyConf
        = [ExtCall.applyConf cfg
            (if strEndsWith "a.mp3" ".mp3" then 44100 else 0)] ∧
      cfg.audio_files
        = ((FilesInput.many ["a.mp3", "b.wav"]).toList).map demoEnv.absPath :=
  mainpipe_resample_rate demoEnv "X" (.many ["a.mp3", "b.wav"]) "rmvpe" 0 0
    false 0 false "a.mp3" ["b.wav"] 3 ⟨"X", "w.pth", "i.index"⟩
    rfl rfl (fun _ _ => rfl) rfl rfl (by decide)

/-- Witness for C8 at the concrete environment `demoEnv`. -/
theorem mainpipe_convert_invocation_witness :
    (mainpipe demoEnv "X" (.many ["a.mp3", "b.wav"]) "rmvpe" 0 0 false 0
        false).2.filter ExtCall.isConvertCall
      = [ExtCall.convertCall
          (((FilesInput.many ["a.mp3", "b.wav"]).toList).map demoEnv.absPath)
          (generate_random_tag demoEnv.draw) false 8] :=
  mainpipe_convert_invocation demoEnv "X" (.many ["a.mp3", "b.wav"]) "rmvpe"
    0 0 false 0 false "a.mp3" ["b.wav"] 3 ⟨"X", "w.pth", "i.index"⟩
    rfl rfl (fun _ _ => rfl) rfl rfl (fun _ _ => rfl)
